import Mathlib

/-!
Verification of the josim-tools CLI driver (`josim_tools/tools.py`).

The driver `run` is embedded as a pure function from a parsed configuration
and the behaviour of its external collaborators (verifier, analyses,
optimizer) to the list of observable events it performs together with the
way the process ends.  Python dicts are embedded as insertion-ordered
association lists, numeric values as rationals.
-/

namespace JosimTools

/-- A `[parameters.NAME]` table.  The `from_dict` conversions of the
parameter-configuration classes live in `configuration.py`, which is not part
of the sources; the driver itself only ever reads the `nominal` field of the
converted objects, so the table is embedded as that field. -/
structure ParamTable where
  nominal : ℚ
  deriving DecidableEq, Repr

/-- The `[yield]` table; the driver reads `num_samples` from the converted
`YieldAnalysisConfiguration`. -/
structure YieldTable where
  num_samples : ℕ
  deriving DecidableEq, Repr

/-- The `[optimize]` table; the driver reads the optional `output` path from
the converted `OptimizeConfiguration`. -/
structure OptimizeTable where
  output : Option String
  deriving DecidableEq, Repr

/-- A parsed TOML configuration as the driver sees it: the `mode` string and
the presence/contents of the tables the driver accesses.  `Option` encodes
presence of a key in the top-level Python dict. -/
structure Config where
  mode : String
  verifyTab : Option Unit
  marginTab : Option Unit
  yieldTab : Option YieldTable
  optimizeTab : Option OptimizeTable
  parameters : Option (List (String × ParamTable))
  deriving DecidableEq, Repr

/-- Result of one `verifier.verify()` call (`VerificationOutcome` of the
spec): pass/fail plus optional failure metadata.  `if output:` in the driver
tests the `passed` flag. -/
structure VerifyOutcome where
  passed : Bool
  failure_time : Option ℚ
  failure_point : Option ℚ
  deriving DecidableEq, Repr

/-- Behaviour of the external collaborators for one run: the machine's
`cpu_count()`, the verifier's verdict, the number of successes the yield
sampler produces, and the optimizer as a function from the initial ordered
parameter vector to the optimized positional vector. -/
structure Ext where
  cpuCount : ℕ
  verifyResult : VerifyOutcome
  yieldSuccess : ℕ
  optimize : List (String × ℚ) → List ℚ

/-- Observable events of a run, in program order. -/
inductive Event where
  | osSystem (cmd : String)
  | parseArgs
  | printLn (line : String)
  | constructVerifier
  | verifyCall
  | constructMarginAnalysis
  | marginAnalyse (params : List (String × ℚ)) (numThreads : ℕ)
  | printMarginResult
  | constructYieldAnalysis
  | sampleCall (numSamples numThreads : ℕ)
  | printYield (numSuccess numTotal : ℕ) (pct : ℚ)
  | constructOptimizer
  | optimizeCall (initial : List (String × ℚ))
  | writeFile (path : String) (point : List ℚ)
  deriving DecidableEq, Repr

/-- How the process ends: an explicit `exit(code)`, normal completion of
`run` (process exit status 0), or an uncaught Python exception (non-zero
process exit status). -/
inductive Outcome where
  | exited (code : ℤ)
  | completed
  | uncaught (exn : String)
  deriving DecidableEq, Repr

/-- The numeric process exit status each outcome produces: `exit(c)` exits
with `c`, a normal return exits with `0`, an uncaught exception makes the
interpreter exit with `1`. -/
def processExitCode : Outcome → ℤ
  | Outcome.exited c => c
  | Outcome.completed => 0
  | Outcome.uncaught _ => 1

/-- Python dict assignment `d[k] = v` on an insertion-ordered dict:
overwrite in place when the key is present, append otherwise. -/
def dinsert (d : List (String × α)) (k : String) (v : α) : List (String × α) :=
  if d.any (fun p => p.1 == k) then
    d.map (fun p => if p.1 == k then (k, v) else p)
  else d ++ [(k, v)]

/-- `out = {}` followed by `for key, item in src.items(): out[key] = f(item)`,
the dict-building loop the driver uses for every parameter table. -/
def dictBuild (src : List (String × α)) (f : α → β) : List (String × β) :=
  src.foldl (fun d p => dinsert d p.1 (f p.2)) []

/-- Modelled from the spec: `YieldAnalysis.percentage` lives in
`analysis.py`, which is not part of the sources.  Per the spec, the
percentage is `num_success / num_total`, defined as `0` when
`num_total == 0` so that the degenerate zero-sample case does not divide by
zero. -/
def yieldPercentage (numSuccess numTotal : ℕ) : ℚ :=
  if numTotal = 0 then 0 else (numSuccess : ℚ) / (numTotal : ℚ)

/-- Modelled from the spec: the JSON schema `CONFIG` lives in `schema.py`,
which is not part of the sources.  Per the spec, schema validation rejects
unknown/invalid shapes before anything reaches the core: the `mode` field
must be one of `verify`, `margin`, `yield`, `optimize`, and the tables the
selected mode reads must be present, so the core may assume a validated,
well-typed input. -/
def schemaAccepts (cfg : Config) : Bool :=
  (cfg.mode == "verify" && cfg.verifyTab.isSome) ||
  (cfg.mode == "margin" && cfg.verifyTab.isSome && cfg.parameters.isSome) ||
  (cfg.mode == "yield" && cfg.verifyTab.isSome && cfg.yieldTab.isSome &&
    cfg.parameters.isSome) ||
  (cfg.mode == "optimize" && cfg.verifyTab.isSome && cfg.optimizeTab.isSome &&
    cfg.parameters.isSome)

/-- One iteration of the driver's re-association loop: look up
`keys_.index(key)` (the first position of `key` in `keys_`), read
`optimized_point[index]` — raising `IndexError` when out of range — and
store the value under `key` in the accumulated dict. -/
def reassocStep (keys_ : List String) (pt : List ℚ)
    (acc : Except String (List (String × ℚ))) (k : String) :
    Except String (List (String × ℚ)) :=
  match acc with
  | Except.error e => Except.error e
  | Except.ok d =>
    match pt.get? (keys_.indexOf k) with
    | some v => Except.ok (dinsert d k v)
    | none => Except.error "IndexError: list index out of range"

/-- The driver's re-association loop (`tools.py` lines 188-191):
`keys_ = list(optimize_parameters.keys())`, then for each key the loop
overwrites the enumeration index with `keys_.index(key)` and stores
`optimized_point[index]` under the key. -/
def reassociate (keys_ : List String) (pt : List ℚ) :
    Except String (List (String × ℚ)) :=
  keys_.foldl (reassocStep keys_ pt) (Except.ok [])

/-- The direct name-to-value mapping of the spec's round-trip property:
each parameter name paired with the optimized value at that name's own
position in the key order. -/
def directNameMap (keys_ : List String) (pt : List ℚ) : List (String × ℚ) :=
  keys_.zip pt

/-- `mode == "verify"` branch (`tools.py` lines 60-75). -/
def runVerify (cfg : Config) (ext : Ext) : List Event × Outcome :=
  let ev0 := [Event.printLn "=== Verify circuit operation ==="]
  match cfg.verifyTab with
  | none => (ev0, Outcome.uncaught "KeyError: verify")
  | some _ =>
    let output := ext.verifyResult
    let ev1 := ev0 ++ [Event.constructVerifier, Event.verifyCall]
    if output.passed then
      (ev1 ++ [Event.printLn "SUCCESS"], Outcome.completed)
    else
      let evT :=
        match output.failure_time with
        | some t => [Event.printLn ("  TIME  : " ++ toString t)]
        | none => []
      let evP :=
        match output.failure_point with
        | some p => [Event.printLn ("  optimized_point : " ++ toString p)]
        | none => []
      (ev1 ++ [Event.printLn "FAILURE"] ++ evT ++ evP, Outcome.completed)

/-- `mode == "margin"` branch (`tools.py` lines 77-106).  The `[margin]`
table is read with `configuration.get("margin", {})`, so a missing table
falls back to the empty dict; `[verify]` and `[parameters]` are indexed
directly and raise `KeyError` when absent. -/
def runMargin (cfg : Config) (ext : Ext) : List Event × Outcome :=
  let ev0 := [Event.printLn "=== Margin analysis ==="]
  match cfg.verifyTab with
  | none => (ev0, Outcome.uncaught "KeyError: verify")
  | some _ =>
    let _margin_table := cfg.marginTab.getD ()
    match cfg.parameters with
    | none => (ev0, Outcome.uncaught "KeyError: parameters")
    | some ps =>
      let margin_parameters := dictBuild ps id
      let num_threads := min (2 * margin_parameters.length) ext.cpuCount
      let margin_analysis_parameters := dictBuild margin_parameters ParamTable.nominal
      (ev0 ++ [Event.constructMarginAnalysis,
               Event.marginAnalyse margin_analysis_parameters num_threads,
               Event.printMarginResult],
       Outcome.completed)

/-- `mode == "yield"` branch (`tools.py` lines 108-132).  `num_total` is the
number of samples drawn (spec: `YieldResult.num_total = num_samples`;
`analysis.py` is not part of the sources), `num_success` comes from the
sampler, and the printed percentage is `percentage() * 100`. -/
def runYield (cfg : Config) (ext : Ext) : List Event × Outcome :=
  let ev0 := [Event.printLn "=== Yield analysis ==="]
  match cfg.verifyTab with
  | none => (ev0, Outcome.uncaught "KeyError: verify")
  | some _ =>
    match cfg.yieldTab with
    | none => (ev0, Outcome.uncaught "KeyError: yield")
    | some yt =>
      match cfg.parameters with
      | none => (ev0, Outcome.uncaught "KeyError: parameters")
      | some _ps =>
        let num_samples := yt.num_samples
        let num_threads := min num_samples ext.cpuCount
        let num_success := ext.yieldSuccess
        let num_total := num_samples
        let pct := yieldPercentage num_success num_total
        (ev0 ++ [Event.constructYieldAnalysis,
                 Event.sampleCall num_samples num_threads,
                 Event.printYield num_success num_total (pct * 100)],
         Outcome.completed)

/-- `mode == "optimize"` branch (`tools.py` lines 133-201): build the
optimizer input in the parameter dict's key order, run the optimizer, write
the updated netlist iff an output path is configured, then re-run a full
margin analysis on the optimized point, re-associating the positional
optimizer output back to names through `reassociate`. -/
def runOptimize (cfg : Config) (ext : Ext) : List Event × Outcome :=
  let ev0 := [Event.printLn "=== Optimize circuit ==="]
  match cfg.verifyTab with
  | none => (ev0, Outcome.uncaught "KeyError: verify")
  | some _ =>
    let _margin_table := cfg.marginTab.getD ()
    match cfg.optimizeTab with
    | none => (ev0, Outcome.uncaught "KeyError: optimize")
    | some ot =>
      match cfg.parameters with
      | none => (ev0, Outcome.uncaught "KeyError: parameters")
      | some ps =>
        let optimize_parameters := dictBuild ps id
        let optimization_parameters :=
          dictBuild optimize_parameters ParamTable.nominal
        let optimized_point := ext.optimize optimization_parameters
        let ev1 := ev0 ++ [Event.constructOptimizer,
                           Event.optimizeCall optimization_parameters]
        let evW :=
          match ot.output with
          | some path => [Event.writeFile path optimized_point]
          | none => []
        let ev2 := ev1 ++ evW ++
          [Event.printLn "=== Optimized circuit margin analysis ===",
           Event.constructMarginAnalysis]
        let margin_parameters := dictBuild ps id
        let num_threads := min (2 * margin_parameters.length) ext.cpuCount
        let keys_ := optimize_parameters.map Prod.fst
        match reassociate keys_ optimized_point with
        | Except.error e => (ev2, Outcome.uncaught e)
        | Except.ok margin_analysis_parameters =>
          (ev2 ++ [Event.marginAnalyse margin_analysis_parameters num_threads,
                   Event.printMarginResult],
           Outcome.completed)

/-- The message of the `assert False` fallback of the mode dispatch
(`tools.py` line 204). -/
def assertMsg : String := "AssertionError: INTERNAL ERROR: UNREACHABLE CODE in tools.py"

/-- The body of `run` after TOML loading (`tools.py` lines 51-204): schema
validation with `exit(-1)` on failure, then string dispatch on `mode` with
an `assert False` fallback. -/
def runFrom (cfg : Config) (ext : Ext) : List Event × Outcome :=
  if schemaAccepts cfg then
    if cfg.mode == "verify" then runVerify cfg ext
    else if cfg.mode == "margin" then runMargin cfg ext
    else if cfg.mode == "yield" then runYield cfg ext
    else if cfg.mode == "optimize" then runOptimize cfg ext
    else ([], Outcome.uncaught assertMsg)
  else
    ([Event.printLn "ERROR: configuration file validation failed",
      Event.printLn ("       reason: mode " ++ cfg.mode ++ " rejected by schema")],
     Outcome.exited (-1))

/-- The version banner text (`__version__` comes from the package). -/
def toolsVersion : String := "JoSIM Tools"

/-- The whole process (`tools.py` lines 2-3 and 30-204): the module-import
side effect `os.system("")`, argument parsing, the version banner, the
optional verbose banner, `toml_load` (whose failure — missing file or
syntactically invalid TOML — is an uncaught exception), then `runFrom`. -/
def program (verbose : Bool) (tomlResult : Except String Config) (ext : Ext) :
    List Event × Outcome :=
  let verboseEv := if verbose then [Event.printLn "Verbose mode enabled"] else []
  let pre := [Event.osSystem "", Event.parseArgs, Event.printLn toolsVersion] ++
    verboseEv
  match tomlResult with
  | Except.error e => (pre, Outcome.uncaught e)
  | Except.ok cfg =>
    let r := runFrom cfg ext
    (pre ++ r.1, r.2)

/-! ### Concrete example inputs -/

/-- A two-parameter `[parameters]` table. -/
def psEx : List (String × ParamTable) := [("a", ⟨1⟩), ("b", ⟨2⟩)]

/-- Example collaborator behaviour: four cores, a failing verification with
a failure time, three yield successes, and an optimizer that returns the
input nominals positionally. -/
def extEx : Ext := ⟨4, ⟨false, some 1, none⟩, 3, fun init => init.map Prod.snd⟩

/-- A margin-mode configuration without a `[margin]` table. -/
def cfgMarginEx : Config := ⟨"margin", some (), none, none, none, some psEx⟩

/-- A yield-mode configuration with five samples. -/
def cfgYieldEx : Config := ⟨"yield", some (), none, some ⟨5⟩, none, some psEx⟩

/-- An optimize-mode configuration with an output path and no `[margin]`
table. -/
def cfgOptEx : Config :=
  ⟨"optimize", some (), none, none, some ⟨some "out.cir"⟩, some psEx⟩

/-- A verify-mode configuration. -/
def cfgVerifyEx : Config := ⟨"verify", some (), none, none, none, none⟩

/-- A configuration with an unknown mode, rejected by the schema. -/
def cfgBadEx : Config := ⟨"frobnicate", none, none, none, none, none⟩

/-! ### Dict lemmas -/

lemma dinsert_of_not_mem (d : List (String × α)) (k : String) (v : α)
    (h : k ∉ d.map Prod.fst) : dinsert d k v = d ++ [(k, v)] := by
  have hany : ¬ d.any (fun p => p.1 == k) = true := by
    simp only [List.any_eq_true, beq_iff_eq]
    rintro ⟨p, hp, rfl⟩
    exact h (List.mem_map_of_mem Prod.fst hp)
  unfold dinsert
  rw [if_neg hany]

lemma dinsert_map_fst (d : List (String × α)) (k : String) (v : α) :
    (dinsert d k v).map Prod.fst =
      if k ∈ d.map Prod.fst then d.map Prod.fst else d.map Prod.fst ++ [k] := by
  by_cases h : k ∈ d.map Prod.fst
  · have hany : d.any (fun p => p.1 == k) = true := by
      simp only [List.any_eq_true, beq_iff_eq]
      obtain ⟨p, hp, hpk⟩ := List.mem_map.mp h
      exact ⟨p, hp, hpk⟩
    rw [if_pos h]
    unfold dinsert
    rw [if_pos hany, List.map_map]
    apply List.map_congr_left
    intro p _
    by_cases hk : p.1 = k
    · simp [hk]
    · simp [hk]
  · rw [if_neg h, dinsert_of_not_mem d k v h]
    simp

lemma foldl_dinsert_fst_nodup (f : α → β) :
    ∀ (src : List (String × α)) (d : List (String × β)),
      (d.map Prod.fst).Nodup →
      ((src.foldl (fun d p => dinsert d p.1 (f p.2)) d).map Prod.fst).Nodup := by
  intro src
  induction src with
  | nil => intro d h; simpa using h
  | cons a tl ih =>
    intro d h
    rw [List.foldl_cons]
    apply ih
    rw [dinsert_map_fst]
    by_cases hk : a.1 ∈ d.map Prod.fst
    · simpa [hk] using h
    · simp only [hk, if_false]
      simp [List.nodup_append, h, hk]

lemma dictBuild_fst_nodup (src : List (String × α)) (f : α → β) :
    ((dictBuild src f).map Prod.fst).Nodup :=
  foldl_dinsert_fst_nodup f src [] (by simp)

lemma dictBuild_go (f : α → β) :
    ∀ (src : List (String × α)) (d : List (String × β)),
      (d.map Prod.fst ++ src.map Prod.fst).Nodup →
      src.foldl (fun d p => dinsert d p.1 (f p.2)) d =
        d ++ src.map (fun p => (p.1, f p.2)) := by
  intro src
  induction src with
  | nil => intro d _; simp
  | cons a tl ih =>
    intro d h
    have h' := List.nodup_append.mp h
    have hfresh : a.1 ∉ d.map Prod.fst := by
      intro hmem
      exact h'.2.2 hmem (by simp)
    rw [List.foldl_cons, dinsert_of_not_mem d a.1 (f a.2) hfresh,
      ih (d ++ [(a.1, f a.2)]) (by simpa [List.append_assoc] using h)]
    simp

lemma dictBuild_eq_map (src : List (String × α)) (f : α → β)
    (h : (src.map Prod.fst).Nodup) :
    dictBuild src f = src.map (fun p => (p.1, f p.2)) := by
  simpa [dictBuild] using dictBuild_go f src [] (by simpa using h)

lemma dictBuild_id_eq (src : List (String × α))
    (h : (src.map Prod.fst).Nodup) : dictBuild src id = src := by
  rw [dictBuild_eq_map src id h]
  simp

/-! ### Re-association lemmas -/

lemma reassocStep_error (keys_ : List String) (pt : List ℚ) (e : String)
    (k : String) : reassocStep keys_ pt (Except.error e) k = Except.error e := rfl

lemma foldl_reassocStep_error (keys_ : List String) (pt : List ℚ) (e : String)
    (l : List String) :
    l.foldl (reassocStep keys_ pt) (Except.error e) = Except.error e := by
  induction l with
  | nil => rfl
  | cons a tl ih => rw [List.foldl_cons, reassocStep_error]; exact ih

lemma reassoc_error_msg (keys_ : List String) (pt : List ℚ) :
    ∀ (l : List String) (acc : List (String × ℚ)) (e : String),
      l.foldl (reassocStep keys_ pt) (Except.ok acc) = Except.error e →
      e = "IndexError: list index out of range" := by
  intro l
  induction l with
  | nil => intro acc e h; simp at h
  | cons a tl ih =>
    intro acc e h
    rw [List.foldl_cons] at h
    rcases hstep : reassocStep keys_ pt (Except.ok acc) a with e' | d
    · rw [hstep, foldl_reassocStep_error] at h
      have he : e = e' := by
        injection h with h1
        exact h1.symm
      subst he
      unfold reassocStep at hstep
      rcases hget : pt.get? (keys_.indexOf a) with _ | v
      · rw [hget] at hstep
        injection hstep with h2
        exact h2.symm
      · rw [hget] at hstep
        cases hstep
    · rw [hstep] at h
      exact ih d e h

lemma reassoc_go (keys_ : List String) (pt : List ℚ) :
    ∀ (suf : List String) (acc : List (String × ℚ)),
      (∀ k ∈ suf, keys_.indexOf k < pt.length) →
      (∀ k ∈ suf, k ∉ acc.map Prod.fst) →
      suf.Nodup →
      suf.foldl (reassocStep keys_ pt) (Except.ok acc) =
        Except.ok (acc ++ suf.map (fun k => (k, pt.getD (keys_.indexOf k) 0))) := by
  intro suf
  induction suf with
  | nil => intro acc _ _ _; simp
  | cons a tl ih =>
    intro acc hlt hfresh hnd
    have h1 : keys_.indexOf a < pt.length := hlt a (by simp)
    rcases hx : pt.get? (keys_.indexOf a) with _ | v
    · exact absurd (List.get?_eq_none.mp hx) (Nat.not_le.mpr h1)
    · have hx2 : pt[keys_.indexOf a]? = some v := by
        rw [← List.get?_eq_getElem?]
        exact hx
      have hgd : pt.getD (keys_.indexOf a) 0 = v := by
        rw [List.getD_eq_getElem?_getD, hx2]
        rfl
      have hstep : reassocStep keys_ pt (Except.ok acc) a =
          Except.ok (acc ++ [(a, v)]) := by
        simp only [reassocStep, hx]
        rw [dinsert_of_not_mem acc a v (hfresh a (by simp))]
      rw [List.foldl_cons, hstep,
        ih (acc ++ [(a, v)])
          (fun k hk => hlt k (List.mem_cons_of_mem a hk))
          (fun k hk => by
            simp only [List.map_append, List.mem_append]
            rintro (hka | hka2)
            · exact hfresh k (List.mem_cons_of_mem a hk) hka
            · have : k = a := by simpa using hka2
              exact (List.nodup_cons.mp hnd).1 (this ▸ hk))
          (List.nodup_cons.mp hnd).2]
      simp [hgd, hx2]

lemma reassociate_eq_ok (keys_ : List String) (pt : List ℚ)
    (hnd : keys_.Nodup) (hlen : keys_.length ≤ pt.length) :
    reassociate keys_ pt =
      Except.ok (keys_.map (fun k => (k, pt.getD (keys_.indexOf k) 0))) := by
  unfold reassociate
  rw [reassoc_go keys_ pt keys_ []
    (fun k hk => lt_of_lt_of_le (List.indexOf_lt_length.mpr hk) hlen)
    (fun k _ => by simp) hnd]
  simp

lemma map_indexOf_eq_zip (keys_ : List String) (pt : List ℚ)
    (hnd : keys_.Nodup) (hlen : keys_.length ≤ pt.length) :
    keys_.map (fun k => (k, pt.getD (keys_.indexOf k) 0)) = keys_.zip pt := by
  apply List.ext_getElem
  · simp [Nat.min_eq_left hlen]
  · intro i h1 h2
    have hk : i < keys_.length := by simpa using h1
    have hp : i < pt.length := lt_of_lt_of_le hk hlen
    simp only [List.getElem_map, List.getElem_zip]
    rw [List.indexOf_getElem hnd i hk, List.getD_eq_getElem pt 0 hp]

lemma reassociate_eq_zip (keys_ : List String) (pt : List ℚ)
    (hnd : keys_.Nodup) (hlen : keys_.length ≤ pt.length) :
    reassociate keys_ pt = Except.ok (keys_.zip pt) := by
  rw [reassociate_eq_ok keys_ pt hnd hlen, map_indexOf_eq_zip keys_ pt hnd hlen]

/-! ### Branch-shape lemmas -/

lemma runVerify_snd (cfg : Config) (ext : Ext) :
    (runVerify cfg ext).2 =
      if cfg.verifyTab.isSome then Outcome.completed
      else Outcome.uncaught "KeyError: verify" := by
  unfold runVerify
  rcases cfg.verifyTab with _ | u
  · rfl
  · rcases hb : ext.verifyResult.passed <;> simp [hb]

lemma runVerify_failure_print (cfg : Config) (ext : Ext)
    (hv : cfg.verifyTab = some ())
    (hb : ext.verifyResult.passed = false) :
    Event.printLn "FAILURE" ∈ (runVerify cfg ext).1 := by
  unfold runVerify
  rw [hv]
  simp [hb]

lemma runMargin_eq (cfg : Config) (ext : Ext) (ps : List (String × ParamTable))
    (hv : cfg.verifyTab = some ()) (hp : cfg.parameters = some ps) :
    runMargin cfg ext =
      ([Event.printLn "=== Margin analysis ===", Event.constructMarginAnalysis,
        Event.marginAnalyse (dictBuild (dictBuild ps id) ParamTable.nominal)
          (min (2 * (dictBuild ps id).length) ext.cpuCount),
        Event.printMarginResult], Outcome.completed) := by
  simp [runMargin, hv, hp]

lemma runMargin_key_error (cfg : Config) (ext : Ext)
    (hv : cfg.verifyTab = none) :
    (runMargin cfg ext).2 = Outcome.uncaught "KeyError: verify" := by
  simp [runMargin, hv]

lemma runYield_eq (cfg : Config) (ext : Ext) (yt : YieldTable)
    (ps : List (String × ParamTable))
    (hv : cfg.verifyTab = some ()) (hy : cfg.yieldTab = some yt)
    (hp : cfg.parameters = some ps) :
    runYield cfg ext =
      ([Event.printLn "=== Yield analysis ===", Event.constructYieldAnalysis,
        Event.sampleCall yt.num_samples (min yt.num_samples ext.cpuCount),
        Event.printYield ext.yieldSuccess yt.num_samples
          (yieldPercentage ext.yieldSuccess yt.num_samples * 100)],
       Outcome.completed) := by
  simp [runYield, hv, hy, hp]

lemma runOptimize_eq (cfg : Config) (ext : Ext) (ot : OptimizeTable)
    (ps : List (String × ParamTable))
    (hv : cfg.verifyTab = some ()) (ho : cfg.optimizeTab = some ot)
    (hp : cfg.parameters = some ps)
    (hopt : ∀ init, (ext.optimize init).length = init.length) :
    runOptimize cfg ext =
      ([Event.printLn "=== Optimize circuit ===", Event.constructOptimizer,
        Event.optimizeCall (dictBuild (dictBuild ps id) ParamTable.nominal)] ++
       (match ot.output with
        | some path =>
          [Event.writeFile path
            (ext.optimize (dictBuild (dictBuild ps id) ParamTable.nominal))]
        | none => []) ++
       [Event.printLn "=== Optimized circuit margin analysis ===",
        Event.constructMarginAnalysis,
        Event.marginAnalyse
          (((dictBuild ps id).map Prod.fst).zip
            (ext.optimize (dictBuild (dictBuild ps id) ParamTable.nominal)))
          (min (2 * (dictBuild ps id).length) ext.cpuCount),
        Event.printMarginResult],
       Outcome.completed) := by
  have hkeys : ((dictBuild ps id).map Prod.fst).Nodup := dictBuild_fst_nodup ps id
  have hlen2 : (dictBuild (dictBuild ps id) ParamTable.nominal).length =
      (dictBuild ps id).length := by
    rw [dictBuild_eq_map _ _ hkeys]
    simp
  have hlen : ((dictBuild ps id).map Prod.fst).length ≤
      (ext.optimize (dictBuild (dictBuild ps id) ParamTable.nominal)).length := by
    rw [hopt, hlen2]
    simp
  have hre := reassociate_eq_zip _ _ hkeys hlen
  simp only [runOptimize, hv, ho, hp, hre]
  rcases ot.output with _ | path <;> simp

lemma runMargin_snd (cfg : Config) (ext : Ext) :
    (runMargin cfg ext).2 =
      if cfg.verifyTab.isSome then
        if cfg.parameters.isSome then Outcome.completed
        else Outcome.uncaught "KeyError: parameters"
      else Outcome.uncaught "KeyError: verify" := by
  obtain ⟨mode, vt, mt, ytab, otab, params⟩ := cfg
  rcases vt with _ | u <;> rcases params with _ | ps <;> simp [runMargin]

lemma runYield_snd (cfg : Config) (ext : Ext) :
    (runYield cfg ext).2 =
      if cfg.verifyTab.isSome then
        if cfg.yieldTab.isSome then
          if cfg.parameters.isSome then Outcome.completed
          else Outcome.uncaught "KeyError: parameters"
        else Outcome.uncaught "KeyError: yield"
      else Outcome.uncaught "KeyError: verify" := by
  obtain ⟨mode, vt, mt, ytab, otab, params⟩ := cfg
  rcases vt with _ | u <;> rcases ytab with _ | yt <;>
    rcases params with _ | ps <;> simp [runYield]

lemma runOptimize_key_errors (cfg : Config) (ext : Ext) :
    (cfg.verifyTab = none →
      (runOptimize cfg ext).2 = Outcome.uncaught "KeyError: verify") ∧
    (cfg.verifyTab = some () → cfg.optimizeTab = none →
      (runOptimize cfg ext).2 = Outcome.uncaught "KeyError: optimize") := by
  obtain ⟨mode, vt, mt, ytab, otab, params⟩ := cfg
  constructor
  · rintro rfl
    simp [runOptimize]
  · rintro rfl rfl
    simp [runOptimize]

lemma runOptimize_no_assert (cfg : Config) (ext : Ext) :
    (runOptimize cfg ext).2 ≠ Outcome.uncaught assertMsg := by
  obtain ⟨mode, vt, mt, ytab, otab, params⟩ := cfg
  rcases vt with _ | u
  · simp [runOptimize, assertMsg]
  rcases otab with _ | ot
  · simp [runOptimize, assertMsg]
  rcases params with _ | ps
  · simp [runOptimize, assertMsg]
  rcases hr : reassociate ((dictBuild ps id).map Prod.fst)
      (ext.optimize (dictBuild (dictBuild ps id) ParamTable.nominal)) with e | m
  · have he : e = "IndexError: list index out of range" := by
      unfold reassociate at hr
      exact reassoc_error_msg _ _ _ _ _ hr
    simp [runOptimize, hr, he, assertMsg]
  · simp [runOptimize, hr, assertMsg]

lemma runFrom_verify (cfg : Config) (ext : Ext)
    (hs : schemaAccepts cfg = true) (hm : cfg.mode = "verify") :
    runFrom cfg ext = runVerify cfg ext := by
  simp [runFrom, hs, hm]

lemma runFrom_margin (cfg : Config) (ext : Ext)
    (hs : schemaAccepts cfg = true) (hm : cfg.mode = "margin") :
    runFrom cfg ext = runMargin cfg ext := by
  simp [runFrom, hs, hm]

lemma runFrom_yield (cfg : Config) (ext : Ext)
    (hs : schemaAccepts cfg = true) (hm : cfg.mode = "yield") :
    runFrom cfg ext = runYield cfg ext := by
  simp [runFrom, hs, hm]

lemma runFrom_optimize (cfg : Config) (ext : Ext)
    (hs : schemaAccepts cfg = true) (hm : cfg.mode = "optimize") :
    runFrom cfg ext = runOptimize cfg ext := by
  simp [runFrom, hs, hm]

/-! ### Claim theorems -/

/-- C9: every invocation of the program executes `os.system("")` as a
module-import side effect, before argument parsing and regardless of the
TOML result, the selected mode, and the collaborators: the trace of every
run starts with the `osSystem ""` event followed by argument parsing. -/
theorem C9_module_import_runs_os_system (verbose : Bool)
    (tomlResult : Except String Config) (ext : Ext) :
    ∃ rest, (program verbose tomlResult ext).1 =
      Event.osSystem "" :: Event.parseArgs :: rest := by
  cases verbose <;> cases tomlResult <;> exact ⟨_, rfl⟩

/-- C8: when `toml_load` fails (missing file or syntactically invalid TOML,
embedded as the error case of the TOML oracle), the process dies on that
uncaught exception with a non-zero status, and the handled
validation-error message is never printed. -/
theorem C8_toml_failure_dies_uncaught (verbose : Bool) (e : String)
    (ext : Ext) :
    (program verbose (Except.error e) ext).2 = Outcome.uncaught e ∧
    processExitCode (program verbose (Except.error e) ext).2 = 1 ∧
    Event.printLn "ERROR: configuration file validation failed" ∉
      (program verbose (Except.error e) ext).1 := by
  cases verbose <;> refine ⟨rfl, rfl, ?_⟩ <;> simp [program, toolsVersion]

/-- C4: a configuration rejected by schema validation makes the run print
the two-line human-readable error and exit with the non-zero code `-1`,
and no core component is constructed or invoked before that exit. -/
theorem C4_invalid_config_rejected_before_core (cfg : Config) (ext : Ext)
    (h : schemaAccepts cfg = false) :
    (runFrom cfg ext).1 =
      [Event.printLn "ERROR: configuration file validation failed",
       Event.printLn ("       reason: mode " ++ cfg.mode ++ " rejected by schema")] ∧
    (runFrom cfg ext).2 = Outcome.exited (-1) ∧
    processExitCode (runFrom cfg ext).2 ≠ 0 ∧
    (∀ ev ∈ (runFrom cfg ext).1,
      ev ≠ Event.constructVerifier ∧ ev ≠ Event.constructMarginAnalysis ∧
      ev ≠ Event.constructYieldAnalysis ∧ ev ≠ Event.constructOptimizer ∧
      ev ≠ Event.verifyCall ∧
      (∀ p t, ev ≠ Event.marginAnalyse p t) ∧
      (∀ s t, ev ≠ Event.sampleCall s t) ∧
      (∀ i, ev ≠ Event.optimizeCall i) ∧
      (∀ pa pt, ev ≠ Event.writeFile pa pt)) := by
  have hrun : runFrom cfg ext =
      ([Event.printLn "ERROR: configuration file validation failed",
        Event.printLn ("       reason: mode " ++ cfg.mode ++ " rejected by schema")],
       Outcome.exited (-1)) := by
    simp [runFrom, h]
  rw [hrun]
  refine ⟨rfl, rfl, by norm_num [processExitCode], ?_⟩
  intro ev hev
  simp only [List.mem_cons, List.not_mem_nil, or_false] at hev
  rcases hev with rfl | rfl <;> simp

/-- C4 witness: the unknown-mode configuration is rejected and exits with
code `-1` without constructing any core component. -/
theorem C4_witness :
    schemaAccepts cfgBadEx = false ∧
    (runFrom cfgBadEx extEx).2 = Outcome.exited (-1) ∧
    processExitCode (runFrom cfgBadEx extEx).2 ≠ 0 := by
  have h := C4_invalid_config_rejected_before_core cfgBadEx extEx rfl
  exact ⟨rfl, h.2.1, h.2.2.1⟩

/-- C6: the yield report prints `num_success`, `num_total` and the derived
percentage `num_success / num_total` (times 100), and the percentage is `0`
when `num_total = 0` instead of dividing by zero. -/
theorem C6_yield_percentage_formula (cfg : Config) (ext : Ext)
    (yt : YieldTable) (ps : List (String × ParamTable))
    (hm : cfg.mode = "yield") (hv : cfg.verifyTab = some ())
    (hy : cfg.yieldTab = some yt) (hp : cfg.parameters = some ps) :
    Event.printYield ext.yieldSuccess yt.num_samples
      (yieldPercentage ext.yieldSuccess yt.num_samples * 100) ∈
      (runFrom cfg ext).1 ∧
    (∀ s t : ℕ, t ≠ 0 → yieldPercentage s t = (s : ℚ) / (t : ℚ)) ∧
    (∀ s : ℕ, yieldPercentage s 0 = 0) := by
  have hs : schemaAccepts cfg = true := by
    simp [schemaAccepts, hm, hv, hy, hp]
  refine ⟨?_, fun s t ht => by simp [yieldPercentage, ht],
    fun s => by simp [yieldPercentage]⟩
  rw [runFrom_yield cfg ext hs hm, runYield_eq cfg ext yt ps hv hy hp]
  simp

/-- C6 witness: three successes out of five samples are reported with the
percentage `3 / 5`, i.e. `60` after scaling. -/
theorem C6_witness :
    Event.printYield 3 5 (yieldPercentage 3 5 * 100) ∈
      (runFrom cfgYieldEx extEx).1 ∧
    yieldPercentage 3 5 * 100 = 60 := by
  have h := C6_yield_percentage_formula cfgYieldEx extEx ⟨5⟩ psEx rfl rfl rfl rfl
  exact ⟨h.1, by norm_num [yieldPercentage]⟩

/-- C2: the worker count handed to the analysis engines is
`min(2 * number_of_parameters, cpu_count())` for margin analyses (also the
one re-run after optimization) and `min(num_samples, cpu_count())` for
yield analyses; zero parameters or zero samples give zero workers. -/
theorem C2_worker_count_policy (cfg : Config) (ext : Ext)
    (ps : List (String × ParamTable)) (yt : YieldTable)
    (hp : cfg.parameters = some ps) (hv : cfg.verifyTab = some ())
    (hnd : (ps.map Prod.fst).Nodup)
    (hopt : ∀ init, (ext.optimize init).length = init.length) :
    (cfg.mode = "margin" →
      ∃ params, Event.marginAnalyse params (min (2 * ps.length) ext.cpuCount) ∈
        (runFrom cfg ext).1) ∧
    (cfg.mode = "yield" → cfg.yieldTab = some yt →
      Event.sampleCall yt.num_samples (min yt.num_samples ext.cpuCount) ∈
        (runFrom cfg ext).1) ∧
    (cfg.mode = "optimize" → ∀ ot, cfg.optimizeTab = some ot →
      ∃ params, Event.marginAnalyse params (min (2 * ps.length) ext.cpuCount) ∈
        (runFrom cfg ext).1) ∧
    (ps = [] → min (2 * ps.length) ext.cpuCount = 0) ∧
    (∀ n : ℕ, n = 0 → min n ext.cpuCount = 0) := by
  have hid : dictBuild ps id = ps := dictBuild_id_eq ps hnd
  refine ⟨?_, ?_, ?_, fun h0 => by simp [h0], fun n hn => by simp [hn]⟩
  · intro hm
    have hs : schemaAccepts cfg = true := by
      simp [schemaAccepts, hm, hv, hp]
    rw [runFrom_margin cfg ext hs hm, runMargin_eq cfg ext ps hv hp]
    exact ⟨dictBuild ps ParamTable.nominal, by simp [hid]⟩
  · intro hm hy
    have hs : schemaAccepts cfg = true := by
      simp [schemaAccepts, hm, hv, hy, hp]
    rw [runFrom_yield cfg ext hs hm, runYield_eq cfg ext yt ps hv hy hp]
    simp
  · intro hm ot ho
    have hs : schemaAccepts cfg = true := by
      simp [schemaAccepts, hm, hv, ho, hp]
    rw [runFrom_optimize cfg ext hs hm,
      runOptimize_eq cfg ext ot ps hv ho hp hopt]
    exact ⟨(ps.map Prod.fst).zip (ext.optimize (dictBuild ps ParamTable.nominal)),
      by simp [hid]⟩

/-- C2 witness: two uniquely named parameters on a four-core machine give
`min(4, 4) = 4` margin workers, and the zero cases give zero workers. -/
theorem C2_witness :
    (∃ params, Event.marginAnalyse params (min (2 * psEx.length) extEx.cpuCount) ∈
      (runFrom cfgMarginEx extEx).1) ∧
    min (2 * psEx.length) extEx.cpuCount = 4 ∧
    min 0 extEx.cpuCount = 0 := by
  have h := C2_worker_count_policy cfgMarginEx extEx psEx ⟨5⟩ rfl rfl (by decide)
    (fun init => by simp [extEx])
  exact ⟨h.1 rfl, by decide, h.2.2.2.2 0 rfl⟩

/-- C1: re-associating the optimizer's positional output back to parameter
names by `keys_.index(key)` yields exactly the direct name-to-value mapping
(each name paired with the value at its own position) whenever the
parameter names are unique, and the key order fed to the optimizer equals
the key order used for re-association; in a full optimize run the
re-associated mapping handed to the final margin analysis is that direct
mapping. -/
theorem C1_optimize_reassociation_roundtrip (ps : List (String × ParamTable))
    (pt : List ℚ) (hnd : (ps.map Prod.fst).Nodup)
    (hlen : ps.length ≤ pt.length) :
    reassociate (ps.map Prod.fst) pt =
      Except.ok (directNameMap (ps.map Prod.fst) pt) ∧
    (dictBuild (dictBuild ps id) ParamTable.nominal).map Prod.fst =
      (dictBuild ps id).map Prod.fst ∧
    (∀ (cfg : Config) (ext : Ext) (ot : OptimizeTable),
      cfg.mode = "optimize" → cfg.verifyTab = some () →
      cfg.optimizeTab = some ot → cfg.parameters = some ps →
      (∀ init, (ext.optimize init).length = init.length) →
      Event.marginAnalyse
        (directNameMap (ps.map Prod.fst)
          (ext.optimize (ps.map (fun p => (p.1, p.2.nominal)))))
        (min (2 * ps.length) ext.cpuCount) ∈ (runFrom cfg ext).1) := by
  have hid : dictBuild ps id = ps := dictBuild_id_eq ps hnd
  refine ⟨?_, ?_, ?_⟩
  · exact reassociate_eq_zip (ps.map Prod.fst) pt hnd (by simpa using hlen)
  · rw [hid, dictBuild_eq_map ps ParamTable.nominal hnd]
    simp
  · intro cfg ext ot hm hv ho hp hopt
    have hs : schemaAccepts cfg = true := by
      simp [schemaAccepts, hm, hv, ho, hp]
    rw [runFrom_optimize cfg ext hs hm,
      runOptimize_eq cfg ext ot ps hv ho hp hopt]
    simp [hid, dictBuild_eq_map ps ParamTable.nominal hnd, directNameMap]

/-- C1 witness: with parameter names `a`, `b` and optimizer output
`[10, 20]`, the re-association loop reproduces the direct mapping. -/
theorem C1_witness :
    reassociate (psEx.map Prod.fst) [10, 20] =
      Except.ok [("a", (10 : ℚ)), ("b", 20)] := by
  have h := (C1_optimize_reassociation_roundtrip psEx [10, 20]
    (by decide) (by decide)).1
  simpa [psEx, directNameMap] using h

/-- C3: every configuration accepted by schema validation (mode one of
verify, margin, yield, optimize, with a positionally aligned optimizer)
completes its analysis and exits with process code zero; a verification
failure prints `FAILURE` but still completes with exit code zero. -/
theorem C3_completed_run_exits_zero (cfg : Config) (ext : Ext)
    (hs : schemaAccepts cfg = true)
    (hopt : ∀ init, (ext.optimize init).length = init.length) :
    (runFrom cfg ext).2 = Outcome.completed ∧
    processExitCode (runFrom cfg ext).2 = 0 ∧
    (cfg.mode = "verify" → ext.verifyResult.passed = false →
      Event.printLn "FAILURE" ∈ (runFrom cfg ext).1) := by
  have hs0 := hs
  have hmode : cfg.mode = "verify" ∨ cfg.mode = "margin" ∨
      cfg.mode = "yield" ∨ cfg.mode = "optimize" := by
    by_contra hc
    push_neg at hc
    obtain ⟨h1, h2, h3, h4⟩ := hc
    simp [schemaAccepts, h1, h2, h3, h4] at hs
  rcases hmode with h1 | h1 | h1 | h1
  · simp only [schemaAccepts, h1] at hs
    simp at hs
    obtain ⟨u, hv⟩ := Option.isSome_iff_exists.mp hs
    cases u
    have hcom : (runFrom cfg ext).2 = Outcome.completed := by
      rw [runFrom_verify cfg ext hs0 h1, runVerify_snd]
      simp [hv]
    refine ⟨hcom, by rw [hcom]; rfl, ?_⟩
    intro _ hb
    rw [runFrom_verify cfg ext hs0 h1]
    exact runVerify_failure_print cfg ext hv hb
  · simp only [schemaAccepts, h1] at hs
    simp at hs
    obtain ⟨hv', hp'⟩ := hs
    obtain ⟨u, hv⟩ := Option.isSome_iff_exists.mp hv'
    cases u
    obtain ⟨ps, hp⟩ := Option.isSome_iff_exists.mp hp'
    have hcom : (runFrom cfg ext).2 = Outcome.completed := by
      rw [runFrom_margin cfg ext hs0 h1, runMargin_eq cfg ext ps hv hp]
    refine ⟨hcom, by rw [hcom]; rfl, ?_⟩
    intro hveq _
    exact absurd (h1.symm.trans hveq) (by decide)
  · simp only [schemaAccepts, h1] at hs
    simp at hs
    obtain ⟨⟨hv', hy'⟩, hp'⟩ := hs
    obtain ⟨u, hv⟩ := Option.isSome_iff_exists.mp hv'
    cases u
    obtain ⟨yt, hy⟩ := Option.isSome_iff_exists.mp hy'
    obtain ⟨ps, hp⟩ := Option.isSome_iff_exists.mp hp'
    have hcom : (runFrom cfg ext).2 = Outcome.completed := by
      rw [runFrom_yield cfg ext hs0 h1, runYield_eq cfg ext yt ps hv hy hp]
    refine ⟨hcom, by rw [hcom]; rfl, ?_⟩
    intro hveq _
    exact absurd (h1.symm.trans hveq) (by decide)
  · simp only [schemaAccepts, h1] at hs
    simp at hs
    obtain ⟨⟨hv', ho'⟩, hp'⟩ := hs
    obtain ⟨u, hv⟩ := Option.isSome_iff_exists.mp hv'
    cases u
    obtain ⟨ot, ho⟩ := Option.isSome_iff_exists.mp ho'
    obtain ⟨ps, hp⟩ := Option.isSome_iff_exists.mp hp'
    have hcom : (runFrom cfg ext).2 = Outcome.completed := by
      rw [runFrom_optimize cfg ext hs0 h1, runOptimize_eq cfg ext ot ps hv ho hp hopt]
    refine ⟨hcom, by rw [hcom]; rfl, ?_⟩
    intro hveq _
    exact absurd (h1.symm.trans hveq) (by decide)

/-- C3 witness: a validated verify-mode configuration whose verifier fails
still prints `FAILURE` and exits with code zero. -/
theorem C3_witness :
    schemaAccepts cfgVerifyEx = true ∧
    (runFrom cfgVerifyEx extEx).2 = Outcome.completed ∧
    processExitCode (runFrom cfgVerifyEx extEx).2 = 0 ∧
    Event.printLn "FAILURE" ∈ (runFrom cfgVerifyEx extEx).1 := by
  have h := C3_completed_run_exits_zero cfgVerifyEx extEx rfl
    (fun init => by simp [extEx])
  exact ⟨rfl, h.1, h.2.1, h.2.2 rfl rfl⟩

/-- C5: a configuration accepted by schema validation has mode verify,
margin, yield or optimize, so the `assert False` fallback of the mode
dispatch can never fire on a validated configuration. -/
theorem C5_unreachable_fallback (cfg : Config) (ext : Ext)
    (hs : schemaAccepts cfg = true) :
    (cfg.mode = "verify" ∨ cfg.mode = "margin" ∨ cfg.mode = "yield" ∨
      cfg.mode = "optimize") ∧
    (runFrom cfg ext).2 ≠ Outcome.uncaught assertMsg := by
  have hs0 := hs
  have hmode : cfg.mode = "verify" ∨ cfg.mode = "margin" ∨
      cfg.mode = "yield" ∨ cfg.mode = "optimize" := by
    by_contra hc
    push_neg at hc
    obtain ⟨h1, h2, h3, h4⟩ := hc
    simp [schemaAccepts, h1, h2, h3, h4] at hs
  refine ⟨hmode, ?_⟩
  rcases hmode with h1 | h1 | h1 | h1
  · rw [runFrom_verify cfg ext hs0 h1, runVerify_snd]
    cases cfg.verifyTab.isSome <;> simp [assertMsg]
  · rw [runFrom_margin cfg ext hs0 h1, runMargin_snd]
    cases cfg.verifyTab.isSome <;> cases cfg.parameters.isSome <;>
      simp [assertMsg]
  · rw [runFrom_yield cfg ext hs0 h1, runYield_snd]
    cases cfg.verifyTab.isSome <;> cases cfg.yieldTab.isSome <;>
      cases cfg.parameters.isSome <;> simp [assertMsg]
  · rw [runFrom_optimize cfg ext hs0 h1]
    exact runOptimize_no_assert cfg ext

/-- C5 witness: the validated verify-mode configuration has a known mode
and its run never ends in the unreachable-code assertion. -/
theorem C5_witness :
    schemaAccepts cfgVerifyEx = true ∧
    (cfgVerifyEx.mode = "verify" ∨ cfgVerifyEx.mode = "margin" ∨
      cfgVerifyEx.mode = "yield" ∨ cfgVerifyEx.mode = "optimize") ∧
    (runFrom cfgVerifyEx extEx).2 ≠ Outcome.uncaught assertMsg := by
  have h := C5_unreachable_fallback cfgVerifyEx extEx rfl
  exact ⟨rfl, h.1, h.2⟩

/-- C7: in optimize mode the trace is exactly: optimizer construction and
call, the netlist write iff an output path is configured (using the
optimized point), then the banner, a margin analysis on the re-associated
optimized point, and its printed result; a `writeFile` event occurs for a
path and point iff that path is the configured output and the point is the
optimizer's output. -/
theorem C7_optimize_write_then_margin (cfg : Config) (ext : Ext)
    (ot : OptimizeTable) (ps : List (String × ParamTable))
    (hm : cfg.mode = "optimize") (hv : cfg.verifyTab = some ())
    (ho : cfg.optimizeTab = some ot) (hp : cfg.parameters = some ps)
    (hopt : ∀ init, (ext.optimize init).length = init.length) :
    (runFrom cfg ext).1 =
      [Event.printLn "=== Optimize circuit ===", Event.constructOptimizer,
       Event.optimizeCall (dictBuild (dictBuild ps id) ParamTable.nominal)] ++
      (match ot.output with
       | some path =>
         [Event.writeFile path
           (ext.optimize (dictBuild (dictBuild ps id) ParamTable.nominal))]
       | none => []) ++
      [Event.printLn "=== Optimized circuit margin analysis ===",
       Event.constructMarginAnalysis,
       Event.marginAnalyse
         (((dictBuild ps id).map Prod.fst).zip
           (ext.optimize (dictBuild (dictBuild ps id) ParamTable.nominal)))
         (min (2 * (dictBuild ps id).length) ext.cpuCount),
       Event.printMarginResult] ∧
    (∀ path point, Event.writeFile path point ∈ (runFrom cfg ext).1 ↔
      (ot.output = some path ∧
        point = ext.optimize (dictBuild (dictBuild ps id) ParamTable.nominal))) ∧
    (runFrom cfg ext).2 = Outcome.completed := by
  have hs : schemaAccepts cfg = true := by
    simp [schemaAccepts, hm, hv, ho, hp]
  rw [runFrom_optimize cfg ext hs hm, runOptimize_eq cfg ext ot ps hv ho hp hopt]
  refine ⟨by rcases ot.output with _ | path <;> simp, ?_, rfl⟩
  intro path point
  rcases hout : ot.output with _ | p <;> simp [hout] <;> aesop

/-- C7 witness: with an `out.cir` output path configured, the run writes
the optimized point to `out.cir` and still re-runs and prints the final
margin analysis. -/
theorem C7_witness :
    Event.writeFile "out.cir" [(1 : ℚ), 2] ∈ (runFrom cfgOptEx extEx).1 ∧
    Event.printMarginResult ∈ (runFrom cfgOptEx extEx).1 ∧
    (runFrom cfgOptEx extEx).2 = Outcome.completed := by
  have h := C7_optimize_write_then_margin cfgOptEx extEx ⟨some "out.cir"⟩ psEx
    rfl rfl rfl rfl (fun init => by simp [extEx])
  refine ⟨?_, ?_, h.2.2⟩
  · exact (h.2.1 "out.cir" [1, 2]).mpr ⟨rfl, by rfl⟩
  · rw [h.1]
    simp

/-- C10: the `[margin]` table is optional — margin and optimize runs
complete without it — while a missing `[verify]`, `[yield]` or `[optimize]`
table makes the corresponding branch die on an uncaught `KeyError`. -/
theorem C10_margin_optional_other_tables_mandatory (cfg : Config) (ext : Ext) :
    (cfg.marginTab = none → cfg.mode = "margin" → cfg.verifyTab = some () →
      ∀ ps, cfg.parameters = some ps →
      (runFrom cfg ext).2 = Outcome.completed) ∧
    (cfg.marginTab = none → cfg.mode = "optimize" → cfg.verifyTab = some () →
      ∀ ot, cfg.optimizeTab = some ot → ∀ ps, cfg.parameters = some ps →
      (∀ init, (ext.optimize init).length = init.length) →
      (runFrom cfg ext).2 = Outcome.completed) ∧
    (cfg.verifyTab = none →
      (runVerify cfg ext).2 = Outcome.uncaught "KeyError: verify" ∧
      (runMargin cfg ext).2 = Outcome.uncaught "KeyError: verify" ∧
      (runYield cfg ext).2 = Outcome.uncaught "KeyError: verify" ∧
      (runOptimize cfg ext).2 = Outcome.uncaught "KeyError: verify") ∧
    (cfg.verifyTab = some () → cfg.yieldTab = none →
      (runYield cfg ext).2 = Outcome.uncaught "KeyError: yield") ∧
    (cfg.verifyTab = some () → cfg.optimizeTab = none →
      (runOptimize cfg ext).2 = Outcome.uncaught "KeyError: optimize") := by
  refine ⟨?_, ?_, ?_, ?_, ?_⟩
  · intro _ hm hv ps hp
    have hs : schemaAccepts cfg = true := by
      simp [schemaAccepts, hm, hv, hp]
    rw [runFrom_margin cfg ext hs hm, runMargin_eq cfg ext ps hv hp]
  · intro _ hm hv ot ho ps hp hopt
    have hs : schemaAccepts cfg = true := by
      simp [schemaAccepts, hm, hv, ho, hp]
    rw [runFrom_optimize cfg ext hs hm,
      runOptimize_eq cfg ext ot ps hv ho hp hopt]
  · intro hv
    refine ⟨by rw [runVerify_snd]; simp [hv],
      by rw [runMargin_snd]; simp [hv],
      by rw [runYield_snd]; simp [hv],
      (runOptimize_key_errors cfg ext).1 hv⟩
  · intro hv hy
    rw [runYield_snd]
    simp [hv, hy]
  · intro hv ho
    exact (runOptimize_key_errors cfg ext).2 hv ho

/-- C10 witness: a margin run without a `[margin]` table completes, while a
yield run without a `[yield]` table dies on `KeyError`. -/
theorem C10_witness :
    cfgMarginEx.marginTab = none ∧
    (runFrom cfgMarginEx extEx).2 = Outcome.completed ∧
    (runYield (Config.mk "yield" (some ()) none none none (some psEx))
      extEx).2 = Outcome.uncaught "KeyError: yield" := by
  have h1 := C10_margin_optional_other_tables_mandatory cfgMarginEx extEx
  have h2 := C10_margin_optional_other_tables_mandatory
    (Config.mk "yield" (some ()) none none none (some psEx)) extEx
  exact ⟨rfl, h1.1 rfl rfl rfl psEx rfl, h2.2.2.2.1 rfl rfl⟩

end JosimTools
